import Mathlib

set_option maxHeartbeats 1000000

/-!
Shallow embedding of the GitHub webhook handler in
`src/webhook-handler.http.ts` (the single executable source file of the
repository), together with proofs about its validation, classification,
comment-composition and error-mapping logic.

JavaScript runtime values that can result from `JSON.parse` are modelled by
the inductive `JsValue`; `undefined` (the result of reading an absent
property) is modelled by `Option JsValue` being `none`.  JSON numbers are
finite decimals, embedded into `Rat`.  JavaScript truthiness and `typeof`
are modelled explicitly and used in the translation of every condition of
the source, so that truthiness subtleties (empty strings are falsy, arrays
have `typeof` "object", `null` is falsy but has `typeof` "object") are
preserved.
-/

/-- JavaScript values as produced by `JSON.parse`.  Arrays are kept
distinct from objects because `typeof` treats both as "object" while
property lookup of the field names used by the handler yields `undefined`
on arrays. -/
inductive JsValue where
  | vNull
  | vBool (b : Bool)
  | vNum (q : Rat)
  | vStr (s : String)
  | vArr (elems : List JsValue)
  | vObj (fields : List (String × JsValue))

/-- Property read `v[key]`: defined (`some`) only on objects that carry the
key.  `JSON.parse` objects have no inherited properties relevant to the
field names the handler reads. -/
def getField : JsValue → String → Option JsValue
  | .vObj fields, key => fields.lookup key
  | _, _ => none

/-- Property read on a possibly-undefined base, as used for
`payload.sender.login` after `payload.sender` has been read. -/
def getFieldO : Option JsValue → String → Option JsValue
  | some v, key => getField v key
  | none, _ => none

/-- JavaScript truthiness of a possibly-undefined value: `undefined`,
`null`, `false`, `0` and `""` are falsy; everything else is truthy.
(`JSON.parse` cannot produce `NaN`, the remaining falsy value.) -/
def truthy : Option JsValue → Bool
  | none => false
  | some .vNull => false
  | some (.vBool b) => b
  | some (.vNum q) => q != 0
  | some (.vStr s) => s != ""
  | some (.vArr _) => true
  | some (.vObj _) => true

/-- JavaScript `typeof` of a possibly-undefined value. -/
def typeofJs : Option JsValue → String
  | none => "undefined"
  | some .vNull => "object"
  | some (.vBool _) => "boolean"
  | some (.vNum _) => "number"
  | some (.vStr _) => "string"
  | some (.vArr _) => "object"
  | some (.vObj _) => "object"

/-- JavaScript `s.includes(pat)`: substring containment. -/
def jsIncludes (s pat : String) : Bool := decide (pat.data <:+: s.data)

/-- JavaScript `s.endsWith(pat)`: suffix test. -/
def jsEndsWith (s pat : String) : Bool := decide (pat.data <:+ s.data)

lemma string_data_inj (s t : String) (h : s.data = t.data) : s = t :=
  congrArg String.mk h

lemma jsIncludes_iff (s pat : String) :
    jsIncludes s pat = true ↔ ∃ u v : String, s = u ++ pat ++ v := by
  unfold jsIncludes
  rw [decide_eq_true_iff]
  constructor
  · rintro ⟨l₁, l₂, h⟩
    refine ⟨⟨l₁⟩, ⟨l₂⟩, ?_⟩
    apply string_data_inj
    simp only [String.data_append]
    exact h.symm
  · rintro ⟨u, v, rfl⟩
    exact ⟨u.data, v.data, by simp [String.data_append]⟩

lemma jsEndsWith_iff (s pat : String) :
    jsEndsWith s pat = true ↔ ∃ u : String, s = u ++ pat := by
  unfold jsEndsWith
  rw [decide_eq_true_iff]
  constructor
  · rintro ⟨l₁, h⟩
    refine ⟨⟨l₁⟩, ?_⟩
    apply string_data_inj
    simp only [String.data_append]
    exact h.symm
  · rintro ⟨u, rfl⟩
    exact ⟨u.data, by simp [String.data_append]⟩

/-- Embedding of the `GitHubUser` interface of the source
(`login: string; type: string; id: number`). -/
structure GitHubUser where
  login : String
  type : String
  id : Rat

/-- Embedding of `BotDetector.isBot`: `type === "Bot"`, then
`login.endsWith("[bot]")`, else human. -/
def isBot (user : GitHubUser) : Bool :=
  if user.type == "Bot" then
    true
  else if jsEndsWith user.login "[bot]" then
    true
  else
    false

/-- Embedding of `CommentService.generateReviewComment`: the four review
triggers joined with newlines. -/
def generateReviewComment : String :=
  String.intercalate "\n"
    ["@coderabbitai review", "/gemini review", "@cubic-dev-ai review", "@greptile review"]

/-- Embedding of the `WebhookError` class: `(message, statusCode, errorCode)`. -/
structure WebhookError where
  message : String
  statusCode : Nat
  errorCode : String
deriving DecidableEq

/-- Embedding of the `GitHubApiError` class: `(message, statusCode, errorCode)`. -/
structure GitHubApiError where
  message : String
  statusCode : Nat
  errorCode : String
deriving DecidableEq

def invalidPayloadTypeError : WebhookError :=
  ⟨"Webhook payload must be a valid JSON object", 400, "INVALID_PAYLOAD_TYPE"⟩

def missingActionError : WebhookError :=
  ⟨"Webhook payload missing required field: action", 400, "MISSING_ACTION"⟩

def missingPullRequestError : WebhookError :=
  ⟨"Webhook payload missing required field: pull_request", 400, "MISSING_PULL_REQUEST"⟩

def missingRepositoryError : WebhookError :=
  ⟨"Webhook payload missing required field: repository", 400, "MISSING_REPOSITORY"⟩

def missingNumberError : WebhookError :=
  ⟨"Webhook payload missing required field: number", 400, "MISSING_NUMBER"⟩

def missingSenderError : WebhookError :=
  ⟨"Webhook payload missing required field: sender", 400, "MISSING_SENDER"⟩

def missingSenderLoginError : WebhookError :=
  ⟨"Sender missing required field: login", 400, "MISSING_SENDER_LOGIN"⟩

def missingSenderTypeError : WebhookError :=
  ⟨"Sender missing required field: type", 400, "MISSING_SENDER_TYPE"⟩

def missingSenderIdError : WebhookError :=
  ⟨"Sender missing required field: id", 400, "MISSING_SENDER_ID"⟩

def missingRepoFullNameError : WebhookError :=
  ⟨"Repository missing required field: full_name", 400, "MISSING_REPO_FULL_NAME"⟩

/-- Embedding of `validateWebhookPayload`.  Each condition is the direct
translation of the corresponding JavaScript condition (`!x` is falsiness,
`typeof x !== t` is a `typeofJs` comparison); the source checks
`pull_request` twice, and the duplicate check is kept.  The source throws a
`WebhookError`; here the thrown error is returned as `some`, and `none`
means the payload was accepted. -/
def validateWebhookPayload (payload : JsValue) : Option WebhookError :=
  if !(truthy (some payload)) || (typeofJs (some payload) != "object") then
    some invalidPayloadTypeError
  else if !(truthy (getField payload "action")) || (typeofJs (getField payload "action") != "string") then
    some missingActionError
  else if !(truthy (getField payload "pull_request")) || (typeofJs (getField payload "pull_request") != "object") then
    some missingPullRequestError
  else if !(truthy (getField payload "repository")) || (typeofJs (getField payload "repository") != "object") then
    some missingRepositoryError
  else if typeofJs (getField payload "number") != "number" then
    some missingNumberError
  else if !(truthy (getField payload "pull_request")) || (typeofJs (getField payload "pull_request") != "object") then
    some missingPullRequestError
  else
    let sender := getField payload "sender"
    if !(truthy sender) || (typeofJs sender != "object") then
      some missingSenderError
    else if !(truthy (getFieldO sender "login")) || (typeofJs (getFieldO sender "login") != "string") then
      some missingSenderLoginError
    else if !(truthy (getFieldO sender "type")) || (typeofJs (getFieldO sender "type") != "string") then
      some missingSenderTypeError
    else if typeofJs (getFieldO sender "id") != "number" then
      some missingSenderIdError
    else if !(truthy (getFieldO (getField payload "repository") "full_name")) || (typeofJs (getFieldO (getField payload "repository") "full_name") != "string") then
      some missingRepoFullNameError
    else
      none

/-- Success condition of the validator's first check (payload is a truthy
value of `typeof` "object"). -/
def objectCheck (p : JsValue) : Bool :=
  truthy (some p) && (typeofJs (some p) == "object")

def actionCheck (p : JsValue) : Bool :=
  truthy (getField p "action") && (typeofJs (getField p "action") == "string")

def pullRequestCheck (p : JsValue) : Bool :=
  truthy (getField p "pull_request") && (typeofJs (getField p "pull_request") == "object")

def repositoryCheck (p : JsValue) : Bool :=
  truthy (getField p "repository") && (typeofJs (getField p "repository") == "object")

def numberCheck (p : JsValue) : Bool :=
  typeofJs (getField p "number") == "number"

def senderCheck (p : JsValue) : Bool :=
  truthy (getField p "sender") && (typeofJs (getField p "sender") == "object")

def senderLoginCheck (p : JsValue) : Bool :=
  truthy (getFieldO (getField p "sender") "login") && (typeofJs (getFieldO (getField p "sender") "login") == "string")

def senderTypeCheck (p : JsValue) : Bool :=
  truthy (getFieldO (getField p "sender") "type") && (typeofJs (getFieldO (getField p "sender") "type") == "string")

def senderIdCheck (p : JsValue) : Bool :=
  typeofJs (getFieldO (getField p "sender") "id") == "number"

def repoFullNameCheck (p : JsValue) : Bool :=
  truthy (getFieldO (getField p "repository") "full_name") && (typeofJs (getFieldO (getField p "repository") "full_name") == "string")

/-- The nine required-field checks of spec section 4.1, in the order the
spec lists them, each paired with the error it raises on failure. -/
def fieldChecks : List ((JsValue → Bool) × WebhookError) :=
  [(actionCheck, missingActionError),
   (pullRequestCheck, missingPullRequestError),
   (repositoryCheck, missingRepositoryError),
   (numberCheck, missingNumberError),
   (senderCheck, missingSenderError),
   (senderLoginCheck, missingSenderLoginError),
   (senderTypeCheck, missingSenderTypeError),
   (senderIdCheck, missingSenderIdError),
   (repoFullNameCheck, missingRepoFullNameError)]

/-- All ten checks of spec section 4.1 in the listed order. -/
def orderedChecks : List ((JsValue → Bool) × WebhookError) :=
  (objectCheck, invalidPayloadTypeError) :: fieldChecks

/-- First-failure-wins semantics over an ordered list of checks: return
the error of the first check that fails, or `none` when all pass. -/
def firstFailure : List ((JsValue → Bool) × WebhookError) → JsValue → Option WebhookError
  | [], _ => none
  | (c, e) :: rest, p => if c p then firstFailure rest p else some e

lemma objectCond (p : JsValue) :
    (!(truthy (some p)) || (typeofJs (some p) != "object")) = !(objectCheck p) := by
  unfold objectCheck
  cases truthy (some p) <;> simp [bne]

lemma strFieldCond (o : Option JsValue) :
    (!(truthy o) || (typeofJs o != "string")) = !(truthy o && (typeofJs o == "string")) := by
  cases truthy o <;> simp [bne]

lemma objFieldCond (o : Option JsValue) :
    (!(truthy o) || (typeofJs o != "object")) = !(truthy o && (typeofJs o == "object")) := by
  cases truthy o <;> simp [bne]

lemma ite_not_flip {α : Sort _} (c : Bool) (A B : α) :
    (if !c then A else B) = if c then B else A := by
  cases c <;> simp

/-- The source validator is exactly first-failure evaluation of the ten
checks in the spec's order (the source's duplicated `pull_request` check is
observably redundant). -/
lemma validate_eq_firstFailure (p : JsValue) :
    validateWebhookPayload p = firstFailure orderedChecks p := by
  simp only [validateWebhookPayload, objectCond, strFieldCond, objFieldCond,
    ite_not_flip, firstFailure, orderedChecks, fieldChecks]
  simp only [actionCheck, pullRequestCheck, repositoryCheck, numberCheck, senderCheck,
    senderLoginCheck, senderTypeCheck, senderIdCheck, repoFullNameCheck, objectCheck]
  cases h : truthy (getField p "pull_request") && (typeofJs (getField p "pull_request") == "object") <;>
    simp [h]

/-- Environment of the Val Town process: the optional `GITHUB_TOKEN`. -/
structure Env where
  githubToken : Option String

/-- Result of reading and JSON-parsing the request body: blank means the
body was empty or whitespace-only, malformed means `JSON.parse` threw. -/
inductive ParsedBody where
  | blank
  | malformed (msg : String)
  | parsed (v : JsValue)

/-- The inbound HTTP request, abstracted to the pieces the handler reads:
the method, the `content-type` header (as returned by `req.headers.get`,
`none` when absent) and the parsed body. -/
structure WebhookRequest where
  method : String
  contentType : Option String
  body : ParsedBody

/-- One outbound GitHub API call (`POST .../repos/{repo}/issues/{n}/comments`). -/
structure OutboundCall where
  repo : String
  issueNumber : Rat
  commentBody : String
deriving DecidableEq

/-- The downstream result of the single `fetch` in `postComment`: either a
response (status, status text, body text) or a thrown network error. -/
inductive FetchOutcome where
  | response (status : Nat) (statusText : String) (bodyText : String)
  | networkError (name : String) (message : String)

/-- Body of the HTTP response produced by the handler: the success envelope
or the error envelope (timestamps, a wall-clock effect, are omitted). -/
inductive ResponseBody where
  | ok (message : String)
  | err (error : String) (message : String)
deriving DecidableEq

/-- Embedding of a `Response`: status code plus the JSON body shape. -/
structure HandlerResponse where
  status : Nat
  body : ResponseBody
deriving DecidableEq

/-- Embedding of `createErrorResponse`. -/
def createErrorResponse (error message : String) (statusCode : Nat) : HandlerResponse :=
  ⟨statusCode, .err error message⟩

/-- Embedding of `createSuccessResponse`. -/
def createSuccessResponse (message : String) : HandlerResponse :=
  ⟨200, .ok message⟩

/-- The `ok` property of a fetch `Response`: status in the range 200-299. -/
def respOk (status : Nat) : Bool :=
  decide (200 ≤ status) && decide (status ≤ 299)

/-- Embedding of `GitHubApiClient.postComment` after the `fetch` call, as a
function of the downstream outcome.  A thrown `GitHubApiError` is returned
as `.error`; a 2xx response returns `.ok`.  The `repo`, `issueNumber` and
`body` arguments only feed the request and the error messages. -/
def postComment (repo : String) (issueNumber : Rat) (body : String)
    (outcome : FetchOutcome) : Except GitHubApiError Unit :=
  match outcome with
  | .networkError name msg =>
      if name == "AbortError" || jsIncludes msg "timeout" then
        .error ⟨"GitHub API request timed out. Please try again later.", 503, "GITHUB_TIMEOUT"⟩
      else
        .error ⟨"Network error while contacting GitHub API: " ++ msg, 503, "GITHUB_NETWORK_ERROR"⟩
  | .response status statusText errorText =>
      if !(respOk status) then
        if status == 401 then
          .error ⟨"GitHub API authentication failed. Please check your GITHUB_TOKEN.", 401, "GITHUB_AUTH_FAILED"⟩
        else if status == 403 then
          if jsIncludes errorText "rate limit" then
            .error ⟨"GitHub API rate limit exceeded. Please try again later.", 429, "GITHUB_RATE_LIMIT"⟩
          else
            .error ⟨"GitHub API access forbidden. Please check repository permissions.", 403, "GITHUB_FORBIDDEN"⟩
        else if status == 404 then
          .error ⟨"Repository or pull request not found: " ++ repo ++ "#" ++ toString issueNumber, 404, "GITHUB_NOT_FOUND"⟩
        else if 500 ≤ status then
          .error ⟨"GitHub API server error. Please try again later.", 503, "GITHUB_SERVER_ERROR"⟩
        else
          .error ⟨"GitHub API request failed: " ++ toString status ++ " " ++ statusText ++ " - " ++ errorText, status, "GITHUB_API_REQUEST_FAILED"⟩
      else
        .ok ()

/-- Reads `payload.action` as the string the handler compares against the
allow-list; after validation the field is always a string. -/
def actionString (p : JsValue) : String :=
  match getField p "action" with
  | some (.vStr s) => s
  | _ => ""

/-- Reads `payload.repository.full_name`; a string after validation. -/
def repoFullName (p : JsValue) : String :=
  match getFieldO (getField p "repository") "full_name" with
  | some (.vStr s) => s
  | _ => ""

/-- Reads `payload.number`; a number after validation. -/
def prNumber (p : JsValue) : Rat :=
  match getField p "number" with
  | some (.vNum q) => q
  | _ => 0

/-- Reads `payload.sender.login`; a string after validation. -/
def senderLogin (p : JsValue) : String :=
  match getFieldO (getField p "sender") "login" with
  | some (.vStr s) => s
  | _ => ""

/-- Display of a JS number inside a template string (approximates the
JavaScript number-to-string conversion; no claim inspects this text). -/
def jsNumToString (q : Rat) : String := toString q

/-- The allow-list of the handler. -/
def ALLOWED_ACTIONS : List String := ["opened"]

/-- Embedding of the default-exported HTTP handler.  The value is the HTTP
response paired with the list of outbound GitHub API calls the invocation
performed (empty or a single comment-creation call).  Thrown
`WebhookError`, `ConfigurationError` and `GitHubApiError` values are
rendered by the top-level catch via `createErrorResponse` with their own
code and status, exactly as in the source.  Note the handler never invokes
`BotDetector.isBot`: no branch of this definition classifies the sender. -/
def handleWebhook (env : Env) (req : WebhookRequest) (outcome : FetchOutcome) :
    HandlerResponse × List OutboundCall :=
  if req.method != "POST" then
    (createErrorResponse "METHOD_NOT_ALLOWED" "Only POST requests are supported" 405, [])
  else
    match req.contentType with
    | none => (createErrorResponse "INVALID_CONTENT_TYPE" "Content-Type must be application/json" 400, [])
    | some ct =>
      if !(jsIncludes ct "application/json") then
        (createErrorResponse "INVALID_CONTENT_TYPE" "Content-Type must be application/json" 400, [])
      else
        match req.body with
        | .blank => (createErrorResponse "EMPTY_PAYLOAD" "Request body is empty" 400, [])
        | .malformed msg =>
            (createErrorResponse "INVALID_JSON" ("Failed to parse webhook payload as JSON: " ++ msg) 400, [])
        | .parsed payload =>
          match validateWebhookPayload payload with
          | some e => (createErrorResponse e.errorCode e.message e.statusCode, [])
          | none =>
            if !(ALLOWED_ACTIONS.contains (actionString payload)) then
              (createSuccessResponse
                ("Action \x27" ++ actionString payload ++ "\x27 is not in the allow-list. No review comment posted."), [])
            else
              match env.githubToken with
              | none =>
                  (createErrorResponse "MISSING_GITHUB_TOKEN" "GitHub token not found in environment variables" 500, [])
              | some _ =>
                let call : OutboundCall := ⟨repoFullName payload, prNumber payload, generateReviewComment⟩
                match postComment (repoFullName payload) (prNumber payload) generateReviewComment outcome with
                | .error e => (createErrorResponse e.errorCode e.message e.statusCode, [call])
                | .ok _ =>
                    (createSuccessResponse
                      ("Review comment posted successfully for PR #" ++ jsNumToString (prNumber payload) ++ " by " ++ senderLogin payload), [call])

lemma firstFailure_mem {L : List ((JsValue → Bool) × WebhookError)} {p : JsValue}
    {e : WebhookError} (h : firstFailure L p = some e) : e ∈ L.map Prod.snd := by
  induction L with
  | nil => simp [firstFailure] at h
  | cons ce rest ih =>
    obtain ⟨c, e₀⟩ := ce
    cases hc : c p with
    | true =>
      rw [firstFailure, hc, if_pos rfl] at h
      exact List.mem_cons_of_mem _ (ih h)
    | false =>
      rw [firstFailure, hc] at h
      simp only [Bool.false_eq_true, if_false, Option.some.injEq] at h
      rw [List.map_cons, ← h]
      exact List.mem_cons_self _ _

lemma firstFailure_none {L : List ((JsValue → Bool) × WebhookError)} {p : JsValue}
    (h : firstFailure L p = none) : ∀ ce ∈ L, ce.1 p = true := by
  induction L with
  | nil => simp
  | cons ce rest ih =>
    obtain ⟨c, e₀⟩ := ce
    cases hc : c p with
    | true =>
      rw [firstFailure, hc, if_pos rfl] at h
      intro ce hce
      rcases List.mem_cons.mp hce with hhd | htl
      · rw [hhd]
        exact hc
      · exact ih h ce htl
    | false =>
      rw [firstFailure, hc] at h
      simp at h

lemma firstFailure_at {L : List ((JsValue → Bool) × WebhookError)} {p : JsValue}
    (i : Nat) (hi : i < L.length)
    (hfail : (L.get ⟨i, hi⟩).1 p = false)
    (hpass : ∀ (j : Nat) (hj : j < L.length), j < i → (L.get ⟨j, hj⟩).1 p = true) :
    firstFailure L p = some (L.get ⟨i, hi⟩).2 := by
  induction L generalizing i with
  | nil => simp at hi
  | cons ce rest ih =>
    obtain ⟨c, e₀⟩ := ce
    cases i with
    | zero =>
      simp only [List.get] at hfail
      simp [firstFailure, hfail]
    | succ n =>
      have hc : c p = true := by
        have := hpass 0 (by simp) (Nat.succ_pos n)
        simpa using this
      simp only [firstFailure, hc, if_true]
      have hn : n < rest.length := Nat.lt_of_succ_lt_succ hi
      have hfail₂ : (rest.get ⟨n, hn⟩).1 p = false := by simpa using hfail
      have hpass₂ : ∀ (j : Nat) (hj : j < rest.length), j < n → (rest.get ⟨j, hj⟩).1 p = true := by
        intro j hj hlt
        have := hpass (j + 1) (by simpa using Nat.succ_lt_succ hj) (Nat.succ_lt_succ hlt)
        simpa using this
      simpa using ih n hn hfail₂ hpass₂

lemma strCheck_true_iff (o : Option JsValue) :
    (truthy o && (typeofJs o == "string")) = true ↔
      ∃ s : String, o = some (.vStr s) ∧ s ≠ "" := by
  rcases o with _ | v
  · simp [truthy, typeofJs]
  · cases v <;> simp [truthy, typeofJs]

lemma numCheck_true_iff (o : Option JsValue) :
    ((typeofJs o == "number") = true) ↔ ∃ q : Rat, o = some (.vNum q) := by
  rcases o with _ | v
  · simp [typeofJs]
  · cases v <;> simp [typeofJs]

lemma fieldChecks_false_of_not_obj {p : JsValue} (h : objectCheck p = false) :
    ∀ ce ∈ fieldChecks, ce.1 p = false := by
  have hnone : ∀ key : String, getField p key = none := by
    intro key
    cases p <;> simp_all [objectCheck, truthy, typeofJs, getField, bne]
  intro ce hce
  simp only [fieldChecks, List.mem_cons, List.not_mem_nil, or_false] at hce
  rcases hce with rfl | rfl | rfl | rfl | rfl | rfl | rfl | rfl | rfl <;>
    simp [actionCheck, pullRequestCheck, repositoryCheck, numberCheck, senderCheck,
      senderLoginCheck, senderTypeCheck, senderIdCheck, repoFullNameCheck,
      hnone, getFieldO, truthy, typeofJs]

/-- C2: `isBot` returns true exactly when the user's `type` is the string
"Bot" (case-sensitive) or the user's `login` ends with the literal suffix
"[bot]" (case-sensitive); otherwise it returns false.  The suffix
condition is stated as an exact decomposition, so a login merely
containing "[bot]" elsewhere does not satisfy it. -/
theorem c2_isBot_characterisation (u : GitHubUser) :
    isBot u = true ↔ (u.type = "Bot" ∨ ∃ pre : String, u.login = pre ++ "[bot]") := by
  unfold isBot
  by_cases ht : u.type = "Bot"
  · simp [ht]
  · have ht' : (u.type == "Bot") = false := by simpa using ht
    simp only [ht', if_false]
    by_cases he : jsEndsWith u.login "[bot]" = true
    · simp [he, (jsEndsWith_iff u.login "[bot]").mp he]
    · have he' : jsEndsWith u.login "[bot]" = false := by simpa using he
      simp only [he', if_false]
      constructor
      · intro hfalse
        exact absurd hfalse (by simp)
      · rintro (h | h)
        · exact absurd h ht
        · exact absurd ((jsEndsWith_iff u.login "[bot]").mpr h) he

/-- C3: the composed review comment is exactly the four review-trigger
lines in order, separated by newlines, with no trailing newline, and (the
composer taking no arguments) independent of any request context. -/
theorem c3_review_comment_text :
    generateReviewComment =
      "@coderabbitai review\n/gemini review\n@cubic-dev-ai review\n@greptile review" ∧
    jsEndsWith generateReviewComment "\n" = false := by
  constructor
  · rfl
  · decide

lemma firstFailure_cons_pass {c : JsValue → Bool} {e : WebhookError}
    {rest : List ((JsValue → Bool) × WebhookError)} {p : JsValue} (h : c p = true) :
    firstFailure ((c, e) :: rest) p = firstFailure rest p := by
  simp [firstFailure, h]

lemma objectCheck_of_fieldCheck {p : JsValue} {ce : (JsValue → Bool) × WebhookError}
    (hmem : ce ∈ fieldChecks) (hpass : ce.1 p = true) : objectCheck p = true := by
  cases hobj : objectCheck p with
  | true => rfl
  | false => exact absurd hpass (by simp [fieldChecks_false_of_not_obj hobj ce hmem])

/-- C4: the validator realises first-failure-wins evaluation of the ten
checks in the order of spec section 4.1 (first conjunct); a non-null
object missing both `action` and `sender` fails with the `action` error
(second conjunct); whenever exactly one of the nine required-field checks
fails, the validator reports that field's error (third conjunct); and
every error of the ordered check list carries HTTP status 400 (fourth
conjunct). -/
theorem c4_validator_order :
    (∀ p, validateWebhookPayload p = firstFailure orderedChecks p)
    ∧ (∀ fields : List (String × JsValue),
        getField (.vObj fields) "action" = none →
        getField (.vObj fields) "sender" = none →
        validateWebhookPayload (.vObj fields) = some missingActionError)
    ∧ (∀ (p : JsValue) (i : Nat) (hi : i < fieldChecks.length),
        (fieldChecks.get ⟨i, hi⟩).1 p = false →
        (∀ (j : Nat) (hj : j < fieldChecks.length), j ≠ i → (fieldChecks.get ⟨j, hj⟩).1 p = true) →
        validateWebhookPayload p = some (fieldChecks.get ⟨i, hi⟩).2)
    ∧ (∀ (i : Nat) (hi : i < orderedChecks.length),
        ((orderedChecks.get ⟨i, hi⟩).2).statusCode = 400) := by
  refine ⟨validate_eq_firstFailure, ?_, ?_, ?_⟩
  · intro fields ha _hs
    simp [validateWebhookPayload, truthy, typeofJs, ha]
  · intro p i hi hfail hpass
    have hobj : objectCheck p = true := by
      by_cases hi0 : i = 0
      · have hp := hpass 1 (by simp [fieldChecks]) (by omega)
        exact objectCheck_of_fieldCheck (List.get_mem _ _ _) hp
      · have hp := hpass 0 (by simp [fieldChecks]) (by omega)
        exact objectCheck_of_fieldCheck (List.get_mem _ _ _) hp
    rw [validate_eq_firstFailure]
    have hstep : firstFailure orderedChecks p = firstFailure fieldChecks p := by
      simp [orderedChecks, firstFailure, hobj]
    rw [hstep]
    exact firstFailure_at i hi hfail (fun j hj hlt => hpass j hj (Nat.ne_of_lt hlt))
  · decide

/-- The payload used to witness C4: well-formed except that the `number`
field is absent, so exactly the `number` check fails. -/
def noNumberPayload : JsValue :=
  .vObj [("action", .vStr "opened"),
         ("pull_request", .vObj [("user", .vObj [("login", .vStr "alice"), ("type", .vStr "User"), ("id", .vNum 7)])]),
         ("repository", .vObj [("full_name", .vStr "octo/repo")]),
         ("sender", .vObj [("login", .vStr "alice"), ("type", .vStr "User"), ("id", .vNum 7)])]

/-- Witness for C4 at a concrete payload where only the `number` check
fails: the validator reports `MISSING_NUMBER` with HTTP 400. -/
theorem c4_validator_order_witness :
    numberCheck noNumberPayload = false ∧
    validateWebhookPayload noNumberPayload = some missingNumberError ∧
    missingNumberError.statusCode = 400 := by
  refine ⟨rfl, ?_, rfl⟩
  exact c4_validator_order.2.2.1 noNumberPayload 3 (by decide) (by decide) (by decide)

/-- C5 (amended): for a non-null-object payload, the validator fails with
`MISSING_ACTION` exactly when the `action` field is not a non-empty
string, i.e. when it is absent, not a string, or the empty string (the
source tests JavaScript falsiness, under which `""` fails). -/
theorem c5_missing_action_characterisation (p : JsValue) (hobj : objectCheck p = true) :
    validateWebhookPayload p = some missingActionError ↔
      ¬ ∃ s : String, getField p "action" = some (.vStr s) ∧ s ≠ "" := by
  have key : validateWebhookPayload p = some missingActionError ↔ actionCheck p = false := by
    cases ha : actionCheck p with
    | false =>
      have hv : validateWebhookPayload p = some missingActionError := by
        rw [validate_eq_firstFailure]
        simp [orderedChecks, fieldChecks, firstFailure, hobj, ha]
      exact iff_of_true hv rfl
    | true =>
      have hv : validateWebhookPayload p ≠ some missingActionError := by
        intro hcon
        rw [validate_eq_firstFailure,
          show orderedChecks = (objectCheck, invalidPayloadTypeError) :: fieldChecks from rfl,
          firstFailure_cons_pass hobj,
          show fieldChecks = (actionCheck, missingActionError) :: fieldChecks.tail from rfl,
          firstFailure_cons_pass ha] at hcon
        have hmem := firstFailure_mem hcon
        exact absurd hmem (by decide)
      exact iff_of_false hv (by simp)
  rw [key, ← strCheck_true_iff (getField p "action")]
  simp [actionCheck]

/-- Witness for C5 at the empty object: `action` is absent, and the
validator reports `MISSING_ACTION`. -/
theorem c5_missing_action_witness :
    objectCheck (JsValue.vObj []) = true ∧
    validateWebhookPayload (JsValue.vObj []) = some missingActionError := by
  refine ⟨rfl, ?_⟩
  refine (c5_missing_action_characterisation (JsValue.vObj []) rfl).mpr ?_
  rintro ⟨s, hs, _⟩
  simp [getField] at hs

/-- A non-null object whose `action` field is the empty string. -/
def emptyActionPayload : JsValue := .vObj [("action", .vStr "")]

/-- Counterexample to C5 as stated: `emptyActionPayload.action` is a
string (its `typeof` is "string"), yet the validator rejects the payload
with `MISSING_ACTION` instead of letting it pass the action check. -/
theorem c5_missing_action_counterexample :
    typeofJs (getField emptyActionPayload "action") = "string" ∧
    validateWebhookPayload emptyActionPayload = some missingActionError :=
  ⟨rfl, rfl⟩

/-- C6 (amended): every payload accepted by the validator has a sender
whose `login` and `type` are non-empty strings and whose `id` is a JSON
number (a rational; the source only checks `typeof`, so the number need
not be an integer). -/
theorem c6_accepted_sender_shape (p : JsValue)
    (hacc : validateWebhookPayload p = none) :
    (∃ l : String, getFieldO (getField p "sender") "login" = some (.vStr l) ∧ l ≠ "")
    ∧ (∃ t : String, getFieldO (getField p "sender") "type" = some (.vStr t) ∧ t ≠ "")
    ∧ (∃ q : Rat, getFieldO (getField p "sender") "id" = some (.vNum q)) := by
  rw [validate_eq_firstFailure] at hacc
  have hall := firstFailure_none hacc
  refine ⟨?_, ?_, ?_⟩
  · exact (strCheck_true_iff _).mp
      (hall (senderLoginCheck, missingSenderLoginError) (by simp [orderedChecks, fieldChecks]))
  · exact (strCheck_true_iff _).mp
      (hall (senderTypeCheck, missingSenderTypeError) (by simp [orderedChecks, fieldChecks]))
  · exact (numCheck_true_iff _).mp
      (hall (senderIdCheck, missingSenderIdError) (by simp [orderedChecks, fieldChecks]))

/-- A fully valid "opened" payload with a human sender. -/
def validOpenedPayload : JsValue :=
  .vObj [("action", .vStr "opened"),
         ("number", .vNum 42),
         ("pull_request", .vObj [("user", .vObj [("login", .vStr "alice"), ("type", .vStr "User"), ("id", .vNum 7)])]),
         ("repository", .vObj [("full_name", .vStr "octo/repo")]),
         ("sender", .vObj [("login", .vStr "alice"), ("type", .vStr "User"), ("id", .vNum 7)])]

/-- Witness for C6 at a concrete accepted payload. -/
theorem c6_accepted_sender_shape_witness :
    validateWebhookPayload validOpenedPayload = none ∧
    (∃ q : Rat, getFieldO (getField validOpenedPayload "sender") "id" = some (.vNum q)) := by
  refine ⟨rfl, ?_⟩
  exact (c6_accepted_sender_shape validOpenedPayload rfl).2.2

/-- A payload identical to `validOpenedPayload` except that the sender id
is the non-integer number 3/2. -/
def fractionalIdPayload : JsValue :=
  .vObj [("action", .vStr "opened"),
         ("number", .vNum 42),
         ("pull_request", .vObj [("user", .vObj [("login", .vStr "alice"), ("type", .vStr "User"), ("id", .vNum 7)])]),
         ("repository", .vObj [("full_name", .vStr "octo/repo")]),
         ("sender", .vObj [("login", .vStr "alice"), ("type", .vStr "User"), ("id", .vNum (mkRat 3 2))])]

/-- Counterexample to C6 as stated: the validator accepts a payload whose
sender id is 3/2, which is not an integer, so acceptance does not imply
the id is a (finite) integer. -/
theorem c6_accepted_sender_shape_counterexample :
    validateWebhookPayload fractionalIdPayload = none ∧
    getFieldO (getField fractionalIdPayload "sender") "id" = some (.vNum (mkRat 3 2)) ∧
    ¬ ∃ n : ℤ, (mkRat 3 2 : ℚ) = (n : ℚ) := by
  refine ⟨rfl, rfl, ?_⟩
  rintro ⟨n, h⟩
  have hd := congrArg Rat.den h
  rw [Rat.den_intCast] at hd
  exact absurd hd (by decide)

/-- C7: for every non-2xx downstream response, `postComment` fails with
exactly the mapped code and status of the spec's table: 401 maps to
GITHUB_AUTH_FAILED/401; a 403 whose body contains "rate limit" maps to
GITHUB_RATE_LIMIT/429; any other 403 maps to GITHUB_FORBIDDEN/403; 404
maps to GITHUB_NOT_FOUND/404; any status at least 500 maps to
GITHUB_SERVER_ERROR/503; any other non-2xx status maps to
GITHUB_API_REQUEST_FAILED carrying the downstream status itself. -/
theorem c7_postComment_error_mapping
    (repo : String) (n : Rat) (body statusText errText : String) (status : Nat)
    (hnon2xx : ¬ (200 ≤ status ∧ status ≤ 299)) :
    ∃ e : GitHubApiError,
      postComment repo n body (.response status statusText errText) = .error e ∧
      (status = 401 → e.errorCode = "GITHUB_AUTH_FAILED" ∧ e.statusCode = 401) ∧
      (status = 403 → (∃ u v : String, errText = u ++ "rate limit" ++ v) →
        e.errorCode = "GITHUB_RATE_LIMIT" ∧ e.statusCode = 429) ∧
      (status = 403 → ¬ (∃ u v : String, errText = u ++ "rate limit" ++ v) →
        e.errorCode = "GITHUB_FORBIDDEN" ∧ e.statusCode = 403) ∧
      (status = 404 → e.errorCode = "GITHUB_NOT_FOUND" ∧ e.statusCode = 404) ∧
      (500 ≤ status → e.errorCode = "GITHUB_SERVER_ERROR" ∧ e.statusCode = 503) ∧
      (status ≠ 401 → status ≠ 403 → status ≠ 404 → status < 500 →
        e.errorCode = "GITHUB_API_REQUEST_FAILED" ∧ e.statusCode = status) := by
  have hok : respOk status = false := by
    simp only [respOk, Bool.and_eq_false_iff, decide_eq_false_iff_not]
    omega
  by_cases h401 : status = 401
  · subst h401
    refine ⟨⟨"GitHub API authentication failed. Please check your GITHUB_TOKEN.", 401, "GITHUB_AUTH_FAILED"⟩,
      by simp [postComment, hok], fun _ => ⟨rfl, rfl⟩,
      fun h => absurd h (by omega), fun h => absurd h (by omega),
      fun h => absurd h (by omega), fun h => absurd h (by omega),
      fun h _ _ _ => absurd rfl h⟩
  · have h401b : (status == 401) = false := by simpa using h401
    by_cases h403 : status = 403
    · subst h403
      by_cases hrl : jsIncludes errText "rate limit" = true
      · refine ⟨⟨"GitHub API rate limit exceeded. Please try again later.", 429, "GITHUB_RATE_LIMIT"⟩,
          by simp [postComment, hok, hrl], fun h => absurd h (by omega),
          fun _ _ => ⟨rfl, rfl⟩,
          fun _ hno => absurd ((jsIncludes_iff errText "rate limit").mp hrl) hno,
          fun h => absurd h (by omega), fun h => absurd h (by omega),
          fun _ h _ _ => absurd rfl h⟩
      · have hrlb : jsIncludes errText "rate limit" = false := by simpa using hrl
        refine ⟨⟨"GitHub API access forbidden. Please check repository permissions.", 403, "GITHUB_FORBIDDEN"⟩,
          by simp [postComment, hok, hrlb], fun h => absurd h (by omega),
          fun _ hex => absurd ((jsIncludes_iff errText "rate limit").mpr hex) hrl,
          fun _ _ => ⟨rfl, rfl⟩,
          fun h => absurd h (by omega), fun h => absurd h (by omega),
          fun _ h _ _ => absurd rfl h⟩
    · have h403b : (status == 403) = false := by simpa using h403
      by_cases h404 : status = 404
      · subst h404
        refine ⟨⟨"Repository or pull request not found: " ++ repo ++ "#" ++ toString n, 404, "GITHUB_NOT_FOUND"⟩,
          by simp [postComment, hok], fun h => absurd h (by omega),
          fun h => absurd h (by omega), fun h => absurd h (by omega),
          fun _ => ⟨rfl, rfl⟩,
          fun h => absurd h (by omega), fun _ _ h _ => absurd rfl h⟩
      · have h404b : (status == 404) = false := by simpa using h404
        by_cases h500 : 500 ≤ status
        · refine ⟨⟨"GitHub API server error. Please try again later.", 503, "GITHUB_SERVER_ERROR"⟩,
            by simp [postComment, hok, h401b, h403b, h404b, h500],
            fun h => absurd h h401, fun h => absurd h h403, fun h => absurd h h403,
            fun h => absurd h h404, fun _ => ⟨rfl, rfl⟩,
            fun _ _ _ h => absurd h500 (by omega)⟩
        · refine ⟨⟨"GitHub API request failed: " ++ toString status ++ " " ++ statusText ++ " - " ++ errText, status, "GITHUB_API_REQUEST_FAILED"⟩,
            by simp [postComment, hok, h401b, h403b, h404b, h500],
            fun h => absurd h h401, fun h => absurd h h403, fun h => absurd h h403,
            fun h => absurd h h404, fun h => absurd h h500,
            fun _ _ _ _ => ⟨rfl, rfl⟩⟩

/-- Projection of a `postComment` outcome to the error's code and status. -/
def exceptErrInfo : Except GitHubApiError Unit → Option (String × Nat)
  | .error e => some (e.errorCode, e.statusCode)
  | .ok _ => none

/-- Witness for C7 at a concrete 401 response: the mapped failure is
GITHUB_AUTH_FAILED with status 401. -/
theorem c7_postComment_error_mapping_witness :
    ¬ (200 ≤ 401 ∧ 401 ≤ 299) ∧
    exceptErrInfo (postComment "octo/repo" 1 "b" (.response 401 "Unauthorized" "")) =
      some ("GITHUB_AUTH_FAILED", 401) := by
  refine ⟨by omega, ?_⟩
  obtain ⟨e, he, hprops⟩ :=
    c7_postComment_error_mapping "octo/repo" 1 "b" "Unauthorized" "" 401 (by omega)
  obtain ⟨h1, h2⟩ := hprops.1 rfl
  rw [he]
  simp [exceptErrInfo, h1, h2]

/-- C8: when `GITHUB_TOKEN` is absent from the environment, every request
carrying a valid payload with action "opened" is answered with HTTP 500
and code `MISSING_GITHUB_TOKEN`, and the outbound-call list is empty (the
`GitHubApiClient` constructor throws before any fetch). -/
theorem c8_missing_token (ct : String) (payload : JsValue) (outcome : FetchOutcome)
    (hct : jsIncludes ct "application/json" = true)
    (hval : validateWebhookPayload payload = none)
    (hact : getField payload "action" = some (.vStr "opened")) :
    handleWebhook ⟨none⟩ ⟨"POST", some ct, .parsed payload⟩ outcome =
      (createErrorResponse "MISSING_GITHUB_TOKEN" "GitHub token not found in environment variables" 500, []) := by
  have has : actionString payload = "opened" := by simp [actionString, hact]
  have hm : actionString payload ∈ ALLOWED_ACTIONS := by
    rw [has]
    simp [ALLOWED_ACTIONS]
  simp [handleWebhook, hct, hval, hm]

/-- Witness for C8 at a concrete valid "opened" request. -/
theorem c8_missing_token_witness :
    jsIncludes "application/json" "application/json" = true ∧
    validateWebhookPayload validOpenedPayload = none ∧
    handleWebhook ⟨none⟩ ⟨"POST", some "application/json", .parsed validOpenedPayload⟩
        (.response 201 "Created" "") =
      (createErrorResponse "MISSING_GITHUB_TOKEN" "GitHub token not found in environment variables" 500, []) := by
  refine ⟨by decide, rfl, ?_⟩
  exact c8_missing_token "application/json" validOpenedPayload (.response 201 "Created" "")
    (by decide) rfl rfl

/-- C9: a valid payload whose action is any string other than "opened" is
answered with HTTP 200 and the not-in-allow-list message, and no outbound
call is made.  The embedded handler contains no invocation of
`BotDetector.isBot` at all, so in particular no actor classification is
performed on this path. -/
theorem c9_non_opened_action (env : Env) (ct : String) (payload : JsValue)
    (outcome : FetchOutcome) (a : String)
    (hct : jsIncludes ct "application/json" = true)
    (hval : validateWebhookPayload payload = none)
    (hact : getField payload "action" = some (.vStr a))
    (hne : a ≠ "opened") :
    handleWebhook env ⟨"POST", some ct, .parsed payload⟩ outcome =
      (createSuccessResponse
        ("Action \x27" ++ a ++ "\x27 is not in the allow-list. No review comment posted."), []) := by
  have has : actionString payload = a := by simp [actionString, hact]
  have hm : a ∉ ALLOWED_ACTIONS := by simp [ALLOWED_ACTIONS, hne]
  simp [handleWebhook, hct, hval, has, hm]

/-- A fully valid payload whose action is "closed". -/
def closedActionPayload : JsValue :=
  .vObj [("action", .vStr "closed"),
         ("number", .vNum 42),
         ("pull_request", .vObj [("user", .vObj [("login", .vStr "alice"), ("type", .vStr "User"), ("id", .vNum 7)])]),
         ("repository", .vObj [("full_name", .vStr "octo/repo")]),
         ("sender", .vObj [("login", .vStr "alice"), ("type", .vStr "User"), ("id", .vNum 7)])]

/-- Witness for C9 at a concrete valid "closed" request. -/
theorem c9_non_opened_action_witness :
    validateWebhookPayload closedActionPayload = none ∧
    handleWebhook ⟨some "token"⟩ ⟨"POST", some "application/json", .parsed closedActionPayload⟩
        (.response 201 "Created" "") =
      (createSuccessResponse
        ("Action \x27" ++ "closed" ++ "\x27 is not in the allow-list. No review comment posted."), []) := by
  refine ⟨rfl, ?_⟩
  exact c9_non_opened_action ⟨some "token"⟩ "application/json" closedActionPayload
    (.response 201 "Created" "") "closed" (by decide) rfl rfl (by decide)

lemma validate_some_mem {p : JsValue} {e : WebhookError}
    (h : validateWebhookPayload p = some e) : e ∈ orderedChecks.map Prod.snd := by
  rw [validate_eq_firstFailure] at h
  exact firstFailure_mem h

lemma validate_errorCode_ne_ict {p : JsValue} {e : WebhookError}
    (h : validateWebhookPayload p = some e) : e.errorCode ≠ "INVALID_CONTENT_TYPE" := by
  have hmem := validate_some_mem h
  simp only [orderedChecks, fieldChecks, List.map_cons, List.map_nil, List.mem_cons,
    List.not_mem_nil, or_false] at hmem
  rcases hmem with rfl | rfl | rfl | rfl | rfl | rfl | rfl | rfl | rfl | rfl <;> decide

lemma postComment_errorCode {repo : String} {n : Rat} {body : String}
    {outcome : FetchOutcome} {e : GitHubApiError}
    (h : postComment repo n body outcome = .error e) :
    e.errorCode = "GITHUB_TIMEOUT" ∨ e.errorCode = "GITHUB_NETWORK_ERROR" ∨
    e.errorCode = "GITHUB_AUTH_FAILED" ∨ e.errorCode = "GITHUB_RATE_LIMIT" ∨
    e.errorCode = "GITHUB_FORBIDDEN" ∨ e.errorCode = "GITHUB_NOT_FOUND" ∨
    e.errorCode = "GITHUB_SERVER_ERROR" ∨ e.errorCode = "GITHUB_API_REQUEST_FAILED" := by
  rcases outcome with ⟨st, stt, bt⟩ | ⟨nm, msg⟩ <;>
    simp only [postComment] at h <;>
    split_ifs at h <;>
    [skip; skip; skip; skip; skip; skip; skip; skip] <;>
    (simp only [Except.error.injEq] at h
     rw [← h]
     simp)

lemma postComment_errorCode_ne_ict {repo : String} {n : Rat} {body : String}
    {outcome : FetchOutcome} {e : GitHubApiError}
    (h : postComment repo n body outcome = .error e) : e.errorCode ≠ "INVALID_CONTENT_TYPE" := by
  rcases postComment_errorCode h with h1 | h1 | h1 | h1 | h1 | h1 | h1 | h1 <;>
    rw [h1] <;> decide

lemma gate_passed_response_ne {env : Env} {ct : String} {body : ParsedBody}
    {outcome : FetchOutcome} (hct : jsIncludes ct "application/json" = true) :
    (handleWebhook env ⟨"POST", some ct, body⟩ outcome).1 ≠
      createErrorResponse "INVALID_CONTENT_TYPE" "Content-Type must be application/json" 400 := by
  rcases body with _ | msg | payload
  · simp [handleWebhook, hct, createErrorResponse]
  · simp [handleWebhook, hct, createErrorResponse]
  · cases hv : validateWebhookPayload payload with
    | some e =>
      have hne := validate_errorCode_ne_ict hv
      simp [handleWebhook, hct, hv, createErrorResponse, hne]
    | none =>
      by_cases hallow : actionString payload ∈ ALLOWED_ACTIONS
      case neg =>
        simp [handleWebhook, hct, hv, hallow, createErrorResponse, createSuccessResponse]
      case pos =>
        cases htok : env.githubToken with
        | none =>
          simp [handleWebhook, hct, hv, hallow, htok, createErrorResponse]
        | some tk =>
          cases hpc : postComment (repoFullName payload) (prNumber payload) generateReviewComment outcome with
          | error e =>
            have hne := postComment_errorCode_ne_ict hpc
            simp [handleWebhook, hct, hv, hallow, htok, hpc, createErrorResponse, hne]
          | ok u =>
            simp [handleWebhook, hct, hv, hallow, htok, hpc, createErrorResponse, createSuccessResponse]

/-- C10: for a POST request, the handler rejects with the
INVALID_CONTENT_TYPE error exactly when the Content-Type header is absent
or does not contain the substring "application/json" anywhere in its
value; any header value containing that substring — even a non-JSON media
type that merely embeds it — passes the gate. -/
theorem c10_content_type_gate (env : Env) (ctOpt : Option String) (body : ParsedBody)
    (outcome : FetchOutcome) :
    ((handleWebhook env ⟨"POST", ctOpt, body⟩ outcome).1 =
        createErrorResponse "INVALID_CONTENT_TYPE" "Content-Type must be application/json" 400)
      ↔ ¬ (∃ ct u v : String, ctOpt = some ct ∧ ct = u ++ "application/json" ++ v) := by
  rcases ctOpt with _ | ct
  · refine iff_of_true rfl ?_
    rintro ⟨ct, u, v, hsome, _⟩
    simp at hsome
  · by_cases hct : jsIncludes ct "application/json" = true
    · obtain ⟨u, v, hdec⟩ := (jsIncludes_iff ct "application/json").mp hct
      refine iff_of_false (gate_passed_response_ne hct) ?_
      intro hno
      exact hno ⟨ct, u, v, rfl, hdec⟩
    · have hctb : jsIncludes ct "application/json" = false := by simpa using hct
      refine iff_of_true ?_ ?_
      · simp [handleWebhook, hctb]
      · rintro ⟨ct₂, u, v, hsome, hdec⟩
        have hce : ct₂ = ct := by simpa using hsome.symm
        rw [hce] at hdec
        exact hct ((jsIncludes_iff ct "application/json").mpr ⟨u, v, hdec⟩)

/-- Witness for C10: a request carrying the non-JSON media type
"text/plain; note=application/json", which embeds the required substring,
passes the gate (the handler proceeds to reject the blank body with
EMPTY_PAYLOAD instead), while the JSON-like media type "text/json" is
rejected by the gate. -/
theorem c10_content_type_gate_witness :
    ((handleWebhook ⟨some "token"⟩ ⟨"POST", some "text/plain; note=application/json", .blank⟩
        (.response 201 "Created" "")).1 ≠
      createErrorResponse "INVALID_CONTENT_TYPE" "Content-Type must be application/json" 400) ∧
    ((handleWebhook ⟨some "token"⟩ ⟨"POST", some "text/json", .blank⟩
        (.response 201 "Created" "")).1 =
      createErrorResponse "INVALID_CONTENT_TYPE" "Content-Type must be application/json" 400) := by
  constructor
  · intro hcon
    have h := (c10_content_type_gate ⟨some "token"⟩ (some "text/plain; note=application/json")
      .blank (.response 201 "Created" "")).mp hcon
    exact h ⟨"text/plain; note=application/json", "text/plain; note=", "",
      rfl, by decide⟩
  · refine (c10_content_type_gate ⟨some "token"⟩ (some "text/json")
      .blank (.response 201 "Created" "")).mpr ?_
    rintro ⟨ct, u, v, hsome, hdec⟩
    obtain rfl : ct = "text/json" := by simpa using hsome.symm
    have : jsIncludes "text/json" "application/json" = true :=
      (jsIncludes_iff "text/json" "application/json").mpr ⟨u, v, hdec⟩
    exact absurd this (by decide)

/-- C1 (code bug evidence): `validOpenedPayload` is a valid "opened" event
whose sender is human (`isBot` is false on it), yet the handler performs an
outbound comment-creation call and, on downstream success, answers 200
with the posted-successfully message.  The handler's definition contains
no invocation of the bot classifier, contradicting the repository's stated
requirement that human-opened PRs receive no comment. -/
theorem c1_human_sender_still_posts :
    isBot ⟨"alice", "User", 7⟩ = false ∧
    validateWebhookPayload validOpenedPayload = none ∧
    actionString validOpenedPayload = "opened" ∧
    handleWebhook ⟨some "token"⟩ ⟨"POST", some "application/json", .parsed validOpenedPayload⟩
        (.response 201 "Created" "") =
      (createSuccessResponse
        ("Review comment posted successfully for PR #" ++ jsNumToString 42 ++ " by " ++ "alice"),
       [⟨"octo/repo", 42, generateReviewComment⟩]) := by
  refine ⟨by decide, rfl, rfl, ?_⟩
  rfl
